import Mathlib

/-!
Verification of the rule-parsing and painless-script-generation pipeline
(`build_painless_script` and its inner `parse_rules` in `main.py`).

The pipeline is embedded shallowly: rule lines are lists of characters, the
two regular-expression searches of the source are modelled as explicit
left-to-right scans with the same leftmost-match semantics, and the generated
script fragments are ordinary strings.  Brace characters inside generated
script text are written with their hexadecimal escapes.
-/

/-- ASCII lower-casing of one character, modelling Python's `str.lower()`
on the ASCII rule text. -/
def lowerChar (c : Char) : Char :=
  if 'A' ≤ c && c ≤ 'Z' then Char.ofNat (c.toNat + 32) else c

/-- Whitespace test modelling Python's `str.strip()` / regex `\s` on ASCII. -/
def isWS (c : Char) : Bool :=
  c == ' ' || c == '\t' || c == '\n' || c == '\r' || c == '\x0b' || c == '\x0c'

/-- `str.strip()`: drop leading and trailing whitespace. -/
def stripChars (l : List Char) : List Char :=
  ((l.dropWhile isWS).reverse.dropWhile isWS).reverse

/-- Boolean prefix test on character lists. -/
def startsWithB : List Char → List Char → Bool
  | [], _ => true
  | _ :: _, [] => false
  | p :: ps, c :: cs => p == c && startsWithB ps cs

/-- Boolean substring test, modelling Python's `pat in s`. -/
def containsSub (pat : List Char) : List Char → Bool
  | [] => startsWithB pat []
  | c :: cs => startsWithB pat (c :: cs) || containsSub pat cs

/-- Consume an expected literal prefix, returning the rest on success. -/
def dropPrefixO : List Char → List Char → Option (List Char)
  | [], l => some l
  | _ :: _, [] => none
  | p :: ps, c :: cs => if p == c then dropPrefixO ps cs else none

/-- Split the input at the first double quote: returns the (quote-free)
characters before it and the characters after it.  Models the regex step
`([^"]+)"` up to the closing quote (the capture may come back empty and is
checked by the caller). -/
def splitAtQuote : List Char → Option (List Char × List Char)
  | [] => none
  | c :: cs =>
    if c == '"' then some ([], cs)
    else
      match splitAtQuote cs with
      | some (cap, rest) => some (c :: cap, rest)
      | none => none

/-- After the literal `column`, match `\s+"([^"]+)"`: one or more whitespace
characters, an opening quote, a non-empty quote-free capture, a closing
quote. -/
def matchAfterColumn : List Char → Option (List Char)
  | [] => none
  | c :: cs =>
    if isWS c then
      match cs.dropWhile isWS with
      | '"' :: r2 =>
        match splitAtQuote r2 with
        | some (cap, _) => if cap.isEmpty then none else some cap
        | none => none
      | _ => none
    else none

/-- The keyword `column` as characters (the source regex is case-sensitive
here). -/
def kwColumn : List Char := String.toList "column"

/-- `re.search(r'column\s+"([^"]+)"', line)`: leftmost occurrence of the
word `column` followed by whitespace and a quoted token; returns the
captured column name. -/
def colSearch : List Char → Option (List Char)
  | [] => none
  | c :: cs =>
    match dropPrefixO kwColumn (c :: cs) with
    | some rest =>
      match matchAfterColumn rest with
      | some cap => some cap
      | none => colSearch cs
    | none => colSearch cs

/-- `re.search(r'"([^"]+)"\s*$', line)`: leftmost position holding a quoted
non-empty token that is followed only by whitespace up to the end of the
line; returns the captured value. -/
def valSearch : List Char → Option (List Char)
  | [] => none
  | c :: cs =>
    if c == '"' then
      match splitAtQuote cs with
      | some (cap, rest) =>
        if !cap.isEmpty && rest.all isWS then some cap else valSearch cs
      | none => valSearch cs
    else valSearch cs

def kwExclude : List Char := String.toList "exclude"
def kwFilter : List Char := String.toList "filter"
def kwUnfilter : List Char := String.toList "unfilter"
def kwContain : List Char := String.toList "contain"

/-- The painless inequality comparison emitted for `exclude` (and by the
`unfilter` branch of the source). -/
def excludeCond (colName v : String) : String :=
  "params['_source']['" ++ colName ++ "']!= '" ++ v ++ "'"

/-- The painless equality comparison emitted for `filter` (with or without
`contain`). -/
def matchCond (colName v : String) : String :=
  "params['_source']['" ++ colName ++ "'] == '" ++ v ++ "'"

/-- The keyword-classification cascade of `parse_rules` (source lines
65-73): `exclude`, then `filter` (the `contain` sub-branch emits the same
comparison in both arms, as in the source), then `unfilter`, else no
condition.  `low` is the lower-cased line. -/
def classify (low : List Char) (colName v : String) : Option String :=
  if containsSub kwExclude low then some (excludeCond colName v)
  else if containsSub kwFilter low then
    (if containsSub kwContain low then some (matchCond colName v)
     else some (matchCond colName v))
  else if containsSub kwUnfilter low then some (excludeCond colName v)
  else none

/-- One iteration of the line loop of `parse_rules`: strip the line, skip it
if empty, run the two regex searches, skip if either fails, otherwise
classify by keyword. -/
def parseLine (raw : List Char) : Option String :=
  if (stripChars raw).isEmpty then none
  else
    match colSearch (stripChars raw), valSearch (stripChars raw) with
    | some c, some v => classify ((stripChars raw).map lowerChar) ⟨c⟩ ⟨v⟩
    | some _, none => none
    | none, _ => none

/-- `rule_text.split("\n")`. -/
def splitNL : List Char → List (List Char)
  | [] => [[]]
  | c :: cs =>
    if c == '\n' then [] :: splitNL cs
    else
      match splitNL cs with
      | h :: t => (c :: h) :: t
      | [] => [[c]]

/-- `sep.join(parts)`. -/
def joinSep (sep : String) : List String → String
  | [] => ""
  | [s] => s
  | s :: rest => s ++ sep ++ joinSep sep rest

/-- The ordered list of painless conditions collected from a rule block's
text. -/
def conditionsOf (text : String) : List String :=
  (splitNL text.toList).filterMap parseLine

/-- `parse_rules`: compile a rule block's text into the guarded accumulation
statement; an empty condition list yields the empty string. -/
def parse_rules (text : String) : String :=
  if (conditionsOf text).isEmpty then ""
  else
    "if(" ++ joinSep " && " (conditionsOf text) ++ ")\x7b"
      ++ "state.map.var += (doc['ColL Name'].value);"
      ++ "state.map.var1 += (doc['ColJ Name'].value);"
      ++ "state.map.var2++;\x7d"

/-- `map_script = f"{numerator_conditions}  {denominator_conditions}"`. -/
def map_script (numeratorConditions denominatorConditions : String) : String :=
  numeratorConditions ++ "  " ++ denominatorConditions

/-- `init_script` of the generated scripted metric. -/
def init_script : String := "state['map'] =['var': 0.0,'var1' : 0.0,'var2' : 0.0]"

/-- `combine_script` of the generated scripted metric. -/
def combine_script : String := "return state"

/-- The per-shard loop of the reduce script (source lines 104-105). -/
def reduceLoop : String :=
  "for(a in states)\x7bnew_map.num1 += (a.map.var); new_map.num2 += (a.map.var1); new_map.num3 += (a.map.var2); new_map.num = (new_map.num1*((new_map.num2/new_map.num3)*100))/100.00; new_map.den += a.map.var;\x7d"

/-- The `den != 0` branch of the reduce script assigning `Final_Performance`
(source line 106). -/
def reducePerfBranch : String :=
  "if(new_map.den!=0)\x7breturn_map.Final_Performance = Math.floor((float)(new_map.num)/(new_map.den)*10000.0)/100.0\x7d"

/-- `reduce_script` of the generated scripted metric, transcribed verbatim
from the source (braces escaped). -/
def reduce_script : String :=
  "def return_map = ['Final_Performance': 0.0,'Final_Numerator': 0.0, 'Final_Denominator': 0.0]; "
    ++ "def new_map = ['num1': 0.0, 'num2': 0.0, 'num3': 0.0, 'num': 0.0, 'den': 0.0]; "
    ++ reduceLoop ++ " "
    ++ reducePerfBranch
    ++ "else\x7breturn_map.Final_Performance ='';return_map.SL_Met=5;\x7d"
    ++ "return_map.Final_Denominator = new_map.den;"
    ++ "return_map.Final_Numerator = new_map.num; return return_map;"

/-- The four scripts of the generated scripted-metric aggregation; the
output document wraps exactly these strings. -/
structure ScriptedMetric where
  mapScript : String
  initScript : String
  reduceScript : String
  combineScript : String
deriving DecidableEq

deriving instance DecidableEq for Except

/-- Normalization applied to every first-column cell:
`astype(str).str.strip().str.lower()`. -/
def normalizeCell (s : String) : String :=
  ⟨(stripChars s.toList).map lowerChar⟩

/-- One iteration of the row loop of `build_painless_script` (source lines
30-35): a `numerator` match overwrites the numerator text, otherwise a
`denominator` match overwrites the denominator text.  The accumulator holds
the optional `(numerator_text, denominator_text)`. -/
def scanRow (acc : Option String × Option String) (row : String × String) :
    Option String × Option String :=
  if containsSub (String.toList "numerator") (normalizeCell row.1).toList then
    (some ⟨stripChars row.2.toList⟩, acc.2)
  else if containsSub (String.toList "denominator") (normalizeCell row.1).toList then
    (acc.1, some ⟨stripChars row.2.toList⟩)
  else acc

/-- The full row scan, starting from both texts unset (`None, None`). -/
def locateRuleBlocks (rows : List (String × String)) :
    Option String × Option String :=
  rows.foldl scanRow (none, none)

/-- Python falsiness of an optional rule text: `not numerator_text` holds
for `None` and for the empty string. -/
def textUnset : Option String → Bool
  | none => true
  | some s => s.isEmpty

/-- The message of the `ValueError` raised when a rule block is missing. -/
def missingRulesMsg : String := "Missing Numerator or Denominator rules in Excel."

/-- `build_painless_script` on an already-read table: locate the two rule
blocks, fail if either is unset, otherwise assemble the four scripts.  An
`Except.error` models the raised exception, before which nothing is written
to the output sink. -/
def build_painless_script (rows : List (String × String)) :
    Except String ScriptedMetric :=
  if textUnset (locateRuleBlocks rows).1 || textUnset (locateRuleBlocks rows).2 then
    Except.error missingRulesMsg
  else
    Except.ok
      { mapScript :=
          map_script (parse_rules (((locateRuleBlocks rows).1).getD ""))
            (parse_rules (((locateRuleBlocks rows).2).getD ""))
        initScript := init_script
        reduceScript := reduce_script
        combineScript := combine_script }

/-- The `Final_Performance` expression of the reduce script in the
`den != 0` branch, `Math.floor((float)(num)/(den)*10000.0)/100.0`,
transcribed into exact arithmetic over the rationals. -/
def finalPerformance (num den : ℚ) : ℚ :=
  (⌊num / den * 10000⌋ : ℚ) / 100

/-- The formula the specification states for the same branch,
`floor(100.0 * num / den) / 100.0`, in the same exact arithmetic. -/
def finalPerformanceClaim (num den : ℚ) : ℚ :=
  (⌊100 * num / den⌋ : ℚ) / 100

/-! ## Helper lemmas -/

set_option maxRecDepth 4000 in
/-- The assembled `reduce_script` is the verbatim concatenation of the
source's adjacent string literals. -/
theorem reduce_script_transcription : reduce_script =
  "def return_map = ['Final_Performance': 0.0,'Final_Numerator': 0.0, 'Final_Denominator': 0.0]; def new_map = ['num1': 0.0, 'num2': 0.0, 'num3': 0.0, 'num': 0.0, 'den': 0.0]; for(a in states)\x7bnew_map.num1 += (a.map.var); new_map.num2 += (a.map.var1); new_map.num3 += (a.map.var2); new_map.num = (new_map.num1*((new_map.num2/new_map.num3)*100))/100.00; new_map.den += a.map.var;\x7d if(new_map.den!=0)\x7breturn_map.Final_Performance = Math.floor((float)(new_map.num)/(new_map.den)*10000.0)/100.0\x7delse\x7breturn_map.Final_Performance ='';return_map.SL_Met=5;\x7dreturn_map.Final_Denominator = new_map.den;return_map.Final_Numerator = new_map.num; return return_map;" := by
  decide

/-- Sanity check of the row locator on a small table. -/
theorem locateRuleBlocks_sample :
    locateRuleBlocks [("numerator", "a"), ("Denominator ", " b ")]
      = (some "a", some "b") := by decide

/-- Sanity check: a table with no denominator row fails. -/
theorem build_painless_script_sample :
    build_painless_script [("numerator", "a")]
      = Except.error missingRulesMsg := by decide

/-- When both regex searches succeed on the stripped line, `parseLine`
reduces to the keyword classification. -/
theorem parseLine_eq_classify (l c v : List Char)
    (hc : colSearch (stripChars l) = some c)
    (hv : valSearch (stripChars l) = some v) :
    parseLine l = classify ((stripChars l).map lowerChar) ⟨c⟩ ⟨v⟩ := by
  have hne : (stripChars l).isEmpty = false := by
    cases hs : stripChars l with
    | nil => rw [hs] at hc; exact absurd hc (by simp [colSearch])
    | cons a as => rfl
  simp [parseLine, hne, hc, hv]

/-- Successful `splitAtQuote` decomposes the input around the first quote
and returns a quote-free capture. -/
theorem splitAtQuote_sound (cs : List Char) :
    ∀ cap rest, splitAtQuote cs = some (cap, rest) →
      cs = cap ++ '"' :: rest ∧ ∀ ch ∈ cap, ch ≠ '"' := by
  induction cs with
  | nil => intro cap rest h; exact absurd h (by simp [splitAtQuote])
  | cons c cs ih =>
    intro cap rest h
    rw [splitAtQuote] at h
    split at h
    next hc =>
      rw [Option.some.injEq, Prod.mk.injEq] at h
      obtain ⟨h1, h2⟩ := h
      subst h1; subst h2
      have hcq : c = '"' := by simpa using hc
      subst hcq
      exact ⟨rfl, by simp⟩
    next hc =>
      split at h
      next cap' rest' hsp =>
        rw [Option.some.injEq, Prod.mk.injEq] at h
        obtain ⟨h1, h2⟩ := h
        subst h1; subst h2
        obtain ⟨e, hq⟩ := ih cap' rest' hsp
        have hcq : c ≠ '"' := by simpa using hc
        refine ⟨by simp [e], ?_⟩
        intro ch hch
        rcases List.mem_cons.mp hch with h' | h'
        · subst h'; exact hcq
        · exact hq ch h'
      next hsp => exact absurd h (by simp)

/-- Soundness of the value search: an extracted value is a non-empty
quote-free token whose closing quote is followed only by whitespace up to
the end of the line. -/
theorem valSearch_sound (l : List Char) :
    ∀ cap, valSearch l = some cap →
      cap ≠ [] ∧ (∀ ch ∈ cap, ch ≠ '"') ∧
      ∃ pre post, l = pre ++ '"' :: (cap ++ '"' :: post) ∧ post.all isWS = true := by
  induction l with
  | nil => intro cap h; exact absurd h (by simp [valSearch])
  | cons c cs ih =>
    intro cap h
    rw [valSearch] at h
    split at h
    next hc =>
      have hcq : c = '"' := by simpa using hc
      split at h
      next cap' rest' hsp =>
        split at h
        next hcond =>
          rw [Option.some.injEq] at h
          subst h
          obtain ⟨e, hq⟩ := splitAtQuote_sound cs cap' rest' hsp
          rw [Bool.and_eq_true, Bool.not_eq_true'] at hcond
          refine ⟨?_, hq, [], rest', ?_, hcond.2⟩
          · intro hcap
            rw [hcap] at hcond
            exact absurd hcond.1 (by simp)
          · subst hcq; simp [e]
        next hcond =>
          obtain ⟨h1, h2, pre, post, e, hws⟩ := ih cap h
          exact ⟨h1, h2, c :: pre, post, by simp [e], hws⟩
      next hsp =>
        obtain ⟨h1, h2, pre, post, e, hws⟩ := ih cap h
        exact ⟨h1, h2, c :: pre, post, by simp [e], hws⟩
    next hc =>
      obtain ⟨h1, h2, pre, post, e, hws⟩ := ih cap h
      exact ⟨h1, h2, c :: pre, post, by simp [e], hws⟩

/-! ## Claim theorems -/

/-- Claim C1 (refuted by the code): a rule line containing `unfilter` but not
`exclude` is claimed to compile to the inequality guard `field(C) != V`.
The `unfilter` branch of the classification cascade is unreachable, because
`filter` is a substring of `unfilter` and is tested first, so such a line
compiles to the equality guard instead: on the line
`Unfilter column "A" = "x"` the parser emits `params['_source']['A'] == 'x'`,
which differs from what `exclude` emits on the same column and value. -/
theorem unfilter_line_compiles_to_equality :
    parseLine (String.toList "Unfilter column \"A\" = \"x\"")
      = some (matchCond "A" "x") ∧
    parseLine (String.toList "Exclude column \"A\" = \"x\"")
      = some (excludeCond "A" "x") ∧
    matchCond "A" "x" ≠ excludeCond "A" "x" :=
  ⟨by decide, by decide, by decide⟩

/-- Claim C2: on any rule line whose column-name and value searches both
succeed, a line containing `exclude` (case-insensitively) compiles to the
inequality condition, and otherwise a line containing `filter` compiles to
the equality condition; the presence or absence of `contain` plays no role
in either conclusion. -/
theorem keyword_classification_emits_expected_comparison (l c v : List Char)
    (hc : colSearch (stripChars l) = some c)
    (hv : valSearch (stripChars l) = some v) :
    (containsSub kwExclude ((stripChars l).map lowerChar) = true →
      parseLine l = some (excludeCond ⟨c⟩ ⟨v⟩)) ∧
    (containsSub kwExclude ((stripChars l).map lowerChar) = false →
      containsSub kwFilter ((stripChars l).map lowerChar) = true →
      parseLine l = some (matchCond ⟨c⟩ ⟨v⟩)) := by
  rw [parseLine_eq_classify l c v hc hv]
  constructor
  · intro hex; simp [classify, hex]
  · intro hex hfi; simp [classify, hex, hfi]

/-- Witness for C2 at the concrete lines
`Exclude line where column "A" = "x"` and `Filter column "B" contain "y"`. -/
theorem keyword_classification_emits_expected_comparison_witness :
    parseLine (String.toList "Exclude line where column \"A\" = \"x\"")
      = some (excludeCond "A" "x") ∧
    parseLine (String.toList "Filter column \"B\" contain \"y\"")
      = some (matchCond "B" "y") :=
  ⟨(keyword_classification_emits_expected_comparison
      (String.toList "Exclude line where column \"A\" = \"x\"")
      (String.toList "A") (String.toList "x") (by decide) (by decide)).1 (by decide),
   (keyword_classification_emits_expected_comparison
      (String.toList "Filter column \"B\" contain \"y\"")
      (String.toList "B") (String.toList "y") (by decide) (by decide)).2
      (by decide) (by decide)⟩

/-- Counterexample to claim C3: the line `column "A" exclude "x" now`
contains a quoted token after `column` and a later quoted token `"x"`
followed by a non-whitespace suffix; the claim says the value `x` is
extracted, but the value search (anchored at the end of the line by
`\s*$`) fails and the whole line is skipped. -/
theorem value_with_trailing_suffix_is_skipped :
    valSearch (stripChars (String.toList "column \"A\" exclude \"x\" now")) = none ∧
    parseLine (String.toList "column \"A\" exclude \"x\" now") = none :=
  ⟨by decide, by decide⟩

/-- Claim C3 (amended): the comparison value is extracted only from a
double-quoted token that terminates the (stripped) line: whenever the value
search succeeds with capture `cap`, the line decomposes as
`pre ++ '"' :: cap ++ '"' :: post` with `post` pure whitespace, so a last
quoted token followed by a non-whitespace suffix is never extracted and the
line yields no condition. -/
theorem extracted_value_terminates_line (l cap : List Char)
    (h : valSearch (stripChars l) = some cap) :
    cap ≠ [] ∧ (∀ ch ∈ cap, ch ≠ '"') ∧
    ∃ pre post, stripChars l = pre ++ '"' :: (cap ++ '"' :: post) ∧
      post.all isWS = true :=
  valSearch_sound (stripChars l) cap h

/-- Witness for C3 (amended) on the line `column "A" = "x"`. -/
theorem extracted_value_terminates_line_witness :
    String.toList "x" ≠ [] ∧
    (∀ ch ∈ String.toList "x", ch ≠ '"') ∧
    ∃ pre post,
      stripChars (String.toList "column \"A\" = \"x\"")
        = pre ++ '"' :: (String.toList "x" ++ '"' :: post) ∧
      post.all isWS = true :=
  extracted_value_terminates_line (String.toList "column \"A\" = \"x\"")
    (String.toList "x") (by decide)

/-- Claim C4: a rule block from which zero conditions are parsed compiles to
the empty accumulation statement, and the map script is always the numerator
statement followed by the denominator statement, separated by two spaces, so
an all-unparsable block contributes the empty string on its side. -/
theorem empty_block_contributes_empty_string (text other : String)
    (h : conditionsOf text = []) :
    parse_rules text = "" ∧
    map_script (parse_rules text) other = "  " ++ other ∧
    map_script other (parse_rules text) = other ++ "  " := by
  have hp : parse_rules text = "" := by simp [parse_rules, h]
  refine ⟨hp, ?_, ?_⟩
  · rw [hp]; rfl
  · rw [hp]; simp [map_script]

/-- Witness for C4 on a block whose only line matches no rule grammar. -/
theorem empty_block_contributes_empty_string_witness :
    conditionsOf "no rules at all here" = [] ∧
    parse_rules "no rules at all here" = "" ∧
    map_script (parse_rules "no rules at all here") "D" = "  " ++ "D" ∧
    map_script "D" (parse_rules "no rules at all here") = "D" ++ "  " :=
  ⟨by decide, empty_block_contributes_empty_string "no rules at all here" "D" (by decide)⟩

/-- Claim C5: when the row scan leaves the numerator text or the denominator
text unset, the pipeline raises the missing-rule-block `ValueError` and no
output document is produced (the JSON dump happens only after this check,
so nothing is ever written on this error). -/
theorem missing_rule_block_raises_and_writes_nothing
    (rows : List (String × String))
    (h : (locateRuleBlocks rows).1 = none ∨ (locateRuleBlocks rows).2 = none) :
    build_painless_script rows = Except.error missingRulesMsg ∧
    ∀ doc, build_painless_script rows ≠ Except.ok doc := by
  have hb : build_painless_script rows = Except.error missingRulesMsg := by
    rcases h with h | h <;> simp [build_painless_script, h, textUnset]
  exact ⟨hb, fun doc hd => by rw [hb] at hd; exact Except.noConfusion hd⟩

/-- Witness for C5 on a table with neither labeled row. -/
theorem missing_rule_block_raises_and_writes_nothing_witness :
    ((locateRuleBlocks [("header", "text")]).1 = none ∨
      (locateRuleBlocks [("header", "text")]).2 = none) ∧
    build_painless_script [("header", "text")] = Except.error missingRulesMsg ∧
    ∀ doc, build_painless_script [("header", "text")] ≠ Except.ok doc :=
  ⟨Or.inl (by decide),
   missing_rule_block_raises_and_writes_nothing [("header", "text")] (Or.inl (by decide))⟩

/-- Claim C9: a row whose normalized first cell contains both `numerator`
and `denominator` is captured as a numerator block only: the numerator
branch fires and the denominator component of the accumulator is left
untouched. -/
theorem combined_label_row_captured_as_numerator
    (acc : Option String × Option String) (row : String × String)
    (hn : containsSub (String.toList "numerator") (normalizeCell row.1).toList = true)
    (_hd : containsSub (String.toList "denominator") (normalizeCell row.1).toList = true) :
    scanRow acc row = (some ⟨stripChars row.2.toList⟩, acc.2) := by
  unfold scanRow
  rw [hn]
  simp

/-- Witness for C9 on the row label `Numerator / Denominator`. -/
theorem combined_label_row_captured_as_numerator_witness :
    containsSub (String.toList "numerator")
      (normalizeCell "Numerator / Denominator").toList = true ∧
    containsSub (String.toList "denominator")
      (normalizeCell "Numerator / Denominator").toList = true ∧
    scanRow (none, some "z") ("Numerator / Denominator", "text")
      = (some "text", some "z") :=
  ⟨by decide, by decide,
   combined_label_row_captured_as_numerator (none, some "z")
     ("Numerator / Denominator", "text") (by decide) (by decide)⟩

/-- Claim C10: a label row whose rule-text cell strips to the empty string
is treated exactly like an absent row: the captured text is falsy, so the
same missing-rule-block error is raised and no document is produced. -/
theorem empty_rule_text_treated_as_unset (rows : List (String × String))
    (h : (locateRuleBlocks rows).1 = some "" ∨ (locateRuleBlocks rows).2 = some "") :
    build_painless_script rows = Except.error missingRulesMsg ∧
    ∀ doc, build_painless_script rows ≠ Except.ok doc := by
  have hb : build_painless_script rows = Except.error missingRulesMsg := by
    rcases h with h | h <;>
      simp [build_painless_script, h, textUnset,
        show ("" : String).isEmpty = true by decide]
  exact ⟨hb, fun doc hd => by rw [hb] at hd; exact Except.noConfusion hd⟩

/-- Witness for C10: a numerator row holding only whitespace fails even
though a denominator row is present and non-empty. -/
theorem empty_rule_text_treated_as_unset_witness :
    ((locateRuleBlocks [("Numerator", " "), ("Denominator", "ok")]).1 = some "" ∨
      (locateRuleBlocks [("Numerator", " "), ("Denominator", "ok")]).2 = some "") ∧
    build_painless_script [("Numerator", " "), ("Denominator", "ok")]
      = Except.error missingRulesMsg ∧
    ∀ doc, build_painless_script [("Numerator", " "), ("Denominator", "ok")]
      ≠ Except.ok doc :=
  ⟨Or.inl (by decide),
   empty_rule_text_treated_as_unset [("Numerator", " "), ("Denominator", "ok")]
     (Or.inl (by decide))⟩

set_option maxRecDepth 8192 in
/-- Claim C6 (refuted by the code): the division of `num2` by `num3` in the
generated reduce script is not guarded: the script contains the quotient
`new_map.num2/new_map.num3` but contains no `num3 != 0` test in any spacing
variant; the only zero test present guards `den`, after the division has
already been performed inside the shard loop. -/
theorem reduce_script_divides_by_num3_unguarded :
    containsSub (String.toList "new_map.num2/new_map.num3")
      reduce_script.toList = true ∧
    containsSub (String.toList "num3!=0") reduce_script.toList = false ∧
    containsSub (String.toList "num3 != 0") reduce_script.toList = false ∧
    containsSub (String.toList "num3!= 0") reduce_script.toList = false ∧
    containsSub (String.toList "num3 !=0") reduce_script.toList = false ∧
    containsSub (String.toList "if(new_map.den!=0)") reduce_script.toList = true :=
  ⟨by decide, by decide, by decide, by decide, by decide, by decide⟩

set_option maxRecDepth 8192 in
/-- Claim C7: inside the per-shard loop of the generated reduce script, the
working denominator sum is accumulated as `new_map.den += a.map.var;`,
reusing the accumulator field `var` that the numerator sum
`new_map.num1 += (a.map.var);` also reads, and not a denominator-specific
field (`var1` and `var2` never feed `den`). -/
theorem reduce_den_reuses_numerator_accumulator :
    containsSub reduceLoop.toList reduce_script.toList = true ∧
    containsSub (String.toList "new_map.num1 += (a.map.var);")
      reduce_script.toList = true ∧
    containsSub (String.toList "new_map.den += a.map.var;")
      reduce_script.toList = true ∧
    containsSub (String.toList "new_map.den += a.map.var1")
      reduce_script.toList = false ∧
    containsSub (String.toList "new_map.den += a.map.var2")
      reduce_script.toList = false :=
  ⟨by decide, by decide, by decide, by decide, by decide⟩

/-- Counterexample to claim C8: the generated reduce script computes
`Math.floor((float)(num)/(den)*10000.0)/100.0`, not
`floor(100.0 * num / den) / 100.0`; in exact arithmetic the two formulas
already disagree at `num = den = 1`, where the script yields `100` and the
claimed formula yields `1`. -/
theorem final_performance_formula_counterexample :
    finalPerformance 1 1 = 100 ∧
    finalPerformanceClaim 1 1 = 1 ∧
    finalPerformance 1 1 ≠ finalPerformanceClaim 1 1 := by
  refine ⟨?_, ?_, ?_⟩ <;>
    norm_num [finalPerformance, finalPerformanceClaim]

set_option maxRecDepth 8192 in
/-- Claim C8 (amended): when `den != 0`, `Final_Performance` is
`floor((num/den) * 10000.0) / 100.0` — the percentage `100 * num / den`
truncated to two decimal places: it equals the floor of `100` times that
percentage divided by `100`, never exceeds the percentage, and falls short
of it by less than `1/100`; the expression appears verbatim in the
generated reduce script. -/
theorem final_performance_truncates_percentage (num den : ℚ)
    (_hden : den ≠ 0) :
    finalPerformance num den = (⌊100 * (100 * num / den)⌋ : ℚ) / 100 ∧
    finalPerformance num den ≤ 100 * num / den ∧
    100 * num / den - finalPerformance num den < 1 / 100 ∧
    containsSub reducePerfBranch.toList reduce_script.toList = true := by
  have harg : num / den * 10000 = 100 * (100 * num / den) := by ring
  have h1 : finalPerformance num den = (⌊100 * (100 * num / den)⌋ : ℚ) / 100 := by
    rw [finalPerformance, harg]
  have hfl : (⌊100 * (100 * num / den)⌋ : ℚ) ≤ 100 * (100 * num / den) :=
    Int.floor_le _
  have hfu : 100 * (100 * num / den) < (⌊100 * (100 * num / den)⌋ : ℚ) + 1 :=
    Int.lt_floor_add_one _
  refine ⟨h1, ?_, ?_, by decide⟩
  · rw [h1]; linarith
  · rw [h1]; linarith

/-- Witness for C8 (amended) at `num = 1`, `den = 2`, where the generated
script yields `50` for a percentage of `50`. -/
theorem final_performance_truncates_percentage_witness :
    (2 : ℚ) ≠ 0 ∧
    (finalPerformance 1 2 = (⌊(100 : ℚ) * (100 * 1 / 2)⌋ : ℚ) / 100 ∧
     finalPerformance 1 2 ≤ 100 * 1 / 2 ∧
     (100 : ℚ) * 1 / 2 - finalPerformance 1 2 < 1 / 100 ∧
     containsSub reducePerfBranch.toList reduce_script.toList = true) :=
  ⟨by norm_num, final_performance_truncates_percentage 1 2 (by norm_num)⟩
